import Mathlib

/-!
Verification of `scripts/create_sample_capsule.py` (MemGlyph sample capsule
generator).  The script populates a SQLite database with sample rows; here we
shallowly embed the rows it inserts and prove properties about them.

Machine integers are modelled as `Nat` with explicit reductions `% 2^32`
where the Python code works modulo 32 bits.  SQL tables are modelled as the
lists of rows the script inserts, in insertion order.  Calls to
`datetime.now(timezone.utc)` are modelled by an abstract clock: the k-th call
made by the script (in program order) yields `iso k` (for `.isoformat()`)
or `epochInt k` (for `int(.timestamp())`), where `iso : Nat → String` and
`epochInt : Nat → Int` are parameters.
-/

namespace MemGlyph

set_option maxRecDepth 1000000

/-! ### SHA-256 (model of Python `hashlib.sha256(...).hexdigest()`) -/

/-- The 64 SHA-256 round constants (FIPS 180-4 §4.2.2), in decimal. -/
def k256 : List Nat :=
  [1116352408, 1899447441, 3049323471, 3921009573, 961987163, 1508970993, 2453635748,
   2870763221, 3624381080, 310598401, 607225278, 1426881987, 1925078388, 2162078206,
   2614888103, 3248222580, 3835390401, 4022224774, 264347078, 604807628, 770255983,
   1249150122, 1555081692, 1996064986, 2554220882, 2821834349, 2952996808, 3210313671,
   3336571891, 3584528711, 113926993, 338241895, 666307205, 773529912, 1294757372,
   1396182291, 1695183700, 1986661051, 2177026350, 2456956037, 2730485921, 2820302411,
   3259730800, 3345764771, 3516065817, 3600352804, 4094571909, 275423344, 430227734,
   506948616, 659060556, 883997877, 958139571, 1322822218, 1537002063, 1747873779,
   1955562222, 2024104815, 2227730452, 2361852424, 2428436474, 2756734187, 3204031479,
   3329325298]

/-- 32-bit rotate right (input assumed `< 2^32`). -/
def rotr (n w : Nat) : Nat :=
  ((w >>> n) ||| (w <<< (32 - n))) % 4294967296

/-- The running hash state: eight 32-bit words. -/
structure Sha256State where
  h0 : Nat
  h1 : Nat
  h2 : Nat
  h3 : Nat
  h4 : Nat
  h5 : Nat
  h6 : Nat
  h7 : Nat

def sha256Init : Sha256State :=
  ⟨1779033703, 3144134277, 1013904242, 2773480762,
   1359893119, 2600822924, 528734635, 1541459225⟩

/-- Extend the 16 schedule words to 64 (`fuel` counts the words still to add;
the accumulator is kept in reverse order). -/
def sha256Extend : Nat → List Nat → List Nat
  | 0, acc => acc.reverse
  | fuel + 1, acc =>
    let w2 := acc.getD 1 0
    let w7 := acc.getD 6 0
    let w15 := acc.getD 14 0
    let w16 := acc.getD 15 0
    let s0 := (rotr 7 w15) ^^^ (rotr 18 w15) ^^^ (w15 >>> 3)
    let s1 := (rotr 17 w2) ^^^ (rotr 19 w2) ^^^ (w2 >>> 10)
    sha256Extend fuel (((w16 + s0 + w7 + s1) % 4294967296) :: acc)

/-- One round of the SHA-256 compression function. -/
def sha256Round (st : Sha256State) (kw : Nat × Nat) : Sha256State :=
  let ⟨a, b, c, d, e, f, g, h⟩ := st
  let s1 := (rotr 6 e) ^^^ (rotr 11 e) ^^^ (rotr 25 e)
  let ch := (e &&& f) ^^^ ((4294967295 - e) &&& g)
  let t1 := (h + s1 + ch + kw.1 + kw.2) % 4294967296
  let s0 := (rotr 2 a) ^^^ (rotr 13 a) ^^^ (rotr 22 a)
  let mj := (a &&& b) ^^^ (a &&& c) ^^^ (b &&& c)
  let t2 := (s0 + mj) % 4294967296
  ⟨(t1 + t2) % 4294967296, a, b, c, (d + t1) % 4294967296, e, f, g⟩

/-- Compress one 64-byte block (given as 16 big-endian 32-bit words). -/
def sha256Compress (st : Sha256State) (ws : List Nat) : Sha256State :=
  let w := sha256Extend 48 ws.reverse
  let r := (k256.zip w).foldl sha256Round st
  ⟨(st.h0 + r.h0) % 4294967296, (st.h1 + r.h1) % 4294967296,
   (st.h2 + r.h2) % 4294967296, (st.h3 + r.h3) % 4294967296,
   (st.h4 + r.h4) % 4294967296, (st.h5 + r.h5) % 4294967296,
   (st.h6 + r.h6) % 4294967296, (st.h7 + r.h7) % 4294967296⟩

/-- Group a list of bytes into big-endian 32-bit words, 16 words per block. -/
def bytesToWords : List Nat → List Nat
  | b0 :: b1 :: b2 :: b3 :: rest =>
    (b0 * 16777216 + b1 * 65536 + b2 * 256 + b3) :: bytesToWords rest
  | _ => []

/-- Group words into blocks of 16 (`fuel`-driven structural recursion; the
fuel is always at least the list length, so it never runs out). -/
def wordsToBlocksAux : Nat → List Nat → List (List Nat)
  | 0, _ => []
  | _, [] => []
  | fuel + 1, w :: ws => (w :: ws).take 16 :: wordsToBlocksAux fuel (ws.drop 15)

def wordsToBlocks (ws : List Nat) : List (List Nat) :=
  wordsToBlocksAux ws.length ws

/-- SHA-256 padding: append `0x80`, zero bytes, and the 64-bit bit length. -/
def sha256Pad (msg : List Nat) : List Nat :=
  let len := msg.length
  let padLen := (119 - len % 64) % 64
  let bitLen := len * 8
  msg ++ [0x80] ++ List.replicate padLen 0 ++
    [bitLen / 2^56 % 256, bitLen / 2^48 % 256, bitLen / 2^40 % 256, bitLen / 2^32 % 256,
     bitLen / 2^24 % 256, bitLen / 2^16 % 256, bitLen / 2^8 % 256, bitLen % 256]

/-- The four big-endian bytes of a 32-bit word. -/
def wordBytes (w : Nat) : List Nat :=
  [w / 16777216 % 256, w / 65536 % 256, w / 256 % 256, w % 256]

def sha256Digest (msg : List Nat) : List Nat :=
  let st := (wordsToBlocks (bytesToWords (sha256Pad msg))).foldl sha256Compress sha256Init
  wordBytes st.h0 ++ wordBytes st.h1 ++ wordBytes st.h2 ++ wordBytes st.h3 ++
  wordBytes st.h4 ++ wordBytes st.h5 ++ wordBytes st.h6 ++ wordBytes st.h7

/-- Lower-case hex digit. -/
def hexDigit (n : Nat) : Char :=
  if n < 10 then Char.ofNat (48 + n) else Char.ofNat (87 + n)

/-- Lower-case hex string of a byte list (Python `hexdigest`). -/
def bytesToHex (bs : List Nat) : String :=
  String.mk (bs.flatMap fun b => [hexDigit (b / 16 % 16), hexDigit (b % 16)])

/-- UTF-8 encoding of one character (Python `str.encode()`). -/
def utf8Bytes (c : Char) : List Nat :=
  let n := c.toNat
  if n < 0x80 then [n]
  else if n < 0x800 then [0xc0 + n / 64, 0x80 + n % 64]
  else if n < 0x10000 then [0xe0 + n / 4096, 0x80 + n / 64 % 64, 0x80 + n % 64]
  else [0xf0 + n / 262144, 0x80 + n / 4096 % 64, 0x80 + n / 64 % 64, 0x80 + n % 64]

/-- UTF-8 bytes of a string. -/
def strBytes (s : String) : List Nat :=
  s.data.flatMap utf8Bytes

/-- `hashlib.sha256(s.encode()).hexdigest()`. -/
def sha256hex (s : String) : String :=
  bytesToHex (sha256Digest (strBytes s))

/-! ### Mersenne Twister (model of CPython `random` after `random.seed(int)`)

State arrays are 624 words modulo `2^32`; in-place C updates become
`List.set`.  `random.seed(n)` for `0 ≤ n < 2^32` calls `init_by_array`
with the single-word key `[n]`. -/

/-- `init_genrand(s)`: the base state used by `init_by_array`. -/
def mtInitGenrand (s : Nat) : List Nat :=
  ((List.range' 1 623).foldl (fun acc i =>
      let prev := acc.headD 0
      ((1812433253 * (prev ^^^ (prev >>> 30)) + i) % 4294967296) :: acc)
    [s % 4294967296]).reverse

/-- `init_by_array(key)` as in CPython's `_randommodule.c`. -/
def mtInitByArray (key : List Nat) : List Nat :=
  let keylen := key.length
  let st0 := (mtInitGenrand 19650218, 1, 0)
  let st1 := (List.range (max 624 keylen)).foldl (fun st _ =>
      let (mt, i, j) := st
      let prev := mt.getD (i - 1) 0
      let v := (((mt.getD i 0) ^^^ (((prev ^^^ (prev >>> 30)) * 1664525) % 4294967296))
                 + key.getD j 0 + j) % 4294967296
      let mt := mt.set i v
      let i := i + 1
      let (mt, i) := if i ≥ 624 then (mt.set 0 (mt.getD 623 0), 1) else (mt, i)
      let j := if j + 1 ≥ keylen then 0 else j + 1
      (mt, i, j)) st0
  let st2 := (List.range 623).foldl (fun st _ =>
      let (mt, i, j) := st
      let prev := mt.getD (i - 1) 0
      let v := (((mt.getD i 0) ^^^ (((prev ^^^ (prev >>> 30)) * 1566083941) % 4294967296))
                 + 4294967296 - i) % 4294967296
      let mt := mt.set i v
      let i := i + 1
      let (mt, i) := if i ≥ 624 then (mt.set 0 (mt.getD 623 0), 1) else (mt, i)
      (mt, i, j)) st1
  st2.1.set 0 0x80000000

/-- One step of the generation loop (`kk`-th cell), with the wraparound
indices resolved: `(kk+1) % 624` and `(kk+397) % 624`. -/
def mtTwistStep (mt : List Nat) (kk : Nat) : List Nat :=
  let y := ((mt.getD kk 0) &&& 0x80000000) ||| ((mt.getD ((kk + 1) % 624) 0) &&& 0x7fffffff)
  let mag := if y % 2 = 1 then 0x9908b0df else 0
  let src := if kk < 227 then kk + 397 else kk - 227
  mt.set kk ((mt.getD src 0) ^^^ (y >>> 1) ^^^ mag)

def mtTwist (mt : List Nat) : List Nat := (List.range 624).foldl mtTwistStep mt

def mtTemper (y : Nat) : Nat :=
  let y := y ^^^ (y >>> 11)
  let y := y ^^^ ((y <<< 7) &&& 0x9d2c5680)
  let y := y ^^^ ((y <<< 15) &&& 0xefc60000)
  y ^^^ (y >>> 18)

structure MTState where
  mt : List Nat
  index : Nat

/-- `genrand_uint32`. -/
def mtNext (s : MTState) : Nat × MTState :=
  let (mt, idx) := if s.index ≥ 624 then (mtTwist s.mt, 0) else (s.mt, s.index)
  (mtTemper (mt.getD idx 0), ⟨mt, idx + 1⟩)

/-- The generator state right after `random.seed(seed)`. -/
def mtInit (seed : Nat) : MTState := ⟨mtInitByArray [seed], 624⟩

/-- `n` successive values of `random.uniform(-1, 1)`.  `random.random()`
returns exactly `(a * 2^26 + b) / 2^53` (with `a` the top 27 bits and `b` the
top 26 bits of two 32-bit draws), and `-1 + 2 * r` is computed exactly in
binary64, so each value is exactly `k / 2^52`; we carry the integer
numerator `k`. -/
def genUniformNums : Nat → MTState → List Int
  | 0, _ => []
  | n + 1, s =>
    let (u1, s1) := mtNext s
    let (u2, s2) := mtNext s1
    (((((u1 >>> 5) * 67108864 + (u2 >>> 6) : Nat)) : Int) - 4503599627370496) :: genUniformNums n s2

/-- Round `x / 2^s` to the nearest integer, ties to even. -/
def rne (x s : Nat) : Nat :=
  if s = 0 then x else
  let q := x >>> s
  let r := x % 2 ^ s
  let half := 2 ^ (s - 1)
  if r > half ∨ (r = half ∧ q % 2 = 1) then q + 1 else q

/-- `struct.pack("f", q)` for `q = k / 2^52`, `|k| ≤ 2^52` (the exact value
of `random.uniform(-1, 1)`): convert to IEEE-754 binary32 with
round-to-nearest-even and emit the four bytes little-endian.  All such `q`
land in the normal range, so no subnormal case arises. -/
def packF32LE (k : Int) : List Nat :=
  if k = 0 then [0, 0, 0, 0]
  else
    let a := k.natAbs
    let sign := if k < 0 then 1 else 0
    let b := Nat.log2 a + 1
    let m := if b ≤ 24 then a <<< (24 - b) else rne a (b - 24)
    let E := if m = 2 ^ 24 then b + 75 else b + 74
    let m2 := if m = 2 ^ 24 then 2 ^ 23 else m
    let bits := sign * 2 ^ 31 + E * 2 ^ 23 + (m2 - 2 ^ 23)
    [bits % 256, bits / 256 % 256, bits / 65536 % 256, bits / 16777216 % 256]

/-- Numeric value of a (lower-case) hex digit, as in `int(s, 16)`. -/
def hexCharVal (c : Char) : Nat :=
  if c.toNat ≤ 57 then c.toNat - 48
  else if c.toNat ≥ 97 then c.toNat - 87
  else c.toNat - 55

def hexToNat (s : String) : Nat :=
  s.data.foldl (fun acc c => acc * 16 + hexCharVal c) 0

/-- `mock_vector_384d(text)`: seed the Mersenne Twister with
`int(sha256(text).hexdigest()[:8], 16)`, draw 384 values of
`random.uniform(-1, 1)` and pack them as consecutive little-endian
binary32 floats (`struct.pack("f" * 384, *vector)`). -/
def mock_vector_384d (text : String) : List Nat :=
  let seed := hexToNat ((sha256hex text).take 8)
  (genUniformNums 384 (mtInit seed)).flatMap packF32LE

/-! ### Python `json.dumps` (default options: `ensure_ascii=True`,
separators `", "` and `": "`) for the shapes the script serializes -/

/-- Four lower-case hex digits of `n < 2^16` (for `\uXXXX` escapes). -/
def hex4 (n : Nat) : List Char :=
  [hexDigit (n / 4096 % 16), hexDigit (n / 256 % 16), hexDigit (n / 16 % 16), hexDigit (n % 16)]

/-- How `json.dumps` (with `ensure_ascii=True`) renders one character inside a
string literal. -/
def pyJsonEscapeChar (c : Char) : List Char :=
  let n := c.toNat
  if c = '"' then ['\\', '"']
  else if c = '\\' then ['\\', '\\']
  else if n = 8 then ['\\', 'b']
  else if n = 9 then ['\\', 't']
  else if n = 10 then ['\\', 'n']
  else if n = 12 then ['\\', 'f']
  else if n = 13 then ['\\', 'r']
  else if n < 0x20 then '\\' :: 'u' :: hex4 n
  else if n < 0x7f then [c]
  else if n < 0x10000 then '\\' :: 'u' :: hex4 n
  else
    ('\\' :: 'u' :: hex4 (0xd800 + (n - 0x10000) / 1024)) ++
    ('\\' :: 'u' :: hex4 (0xdc00 + (n - 0x10000) % 1024))

/-- `json.dumps` of a single string. -/
def pyJsonStr (s : String) : String :=
  "\"" ++ String.mk (s.data.flatMap pyJsonEscapeChar) ++ "\""

/-- `json.dumps` of a list of strings. -/
def pyJsonStrList (l : List String) : String :=
  "[" ++ String.intercalate ", " (l.map pyJsonStr) ++ "]"

/-! ### The script's constant sample data -/

/-- One element of the `PAGES` constant. -/
structure Page where
  page_no : Nat
  title : String
  full_text : String
  entities : List (String × String × String)
  deriving DecidableEq

def emptyPage : Page := { page_no := 0, title := "", full_text := "", entities := [] }

def PAGES : List Page := [
  { page_no := 1,
    title := "MemGlyph Universal Specification Overview",
    full_text :=
      "MemGlyph is a system for creating portable, verifiable, and queryable knowledge artifacts.\n        Each MemGlyph artifact is a self-contained file that bundles its own metadata, semantic structure,\n        and cryptographic proof of its contents and history. The system enables offline hybrid search\n        combining keyword, semantic, and graph-based retrieval directly within the artifact itself.",
    entities := [("TECH", "MemGlyph", "MemGlyph"), ("TECH", "hybrid search", "hybrid search")] },
  { page_no := 2,
    title := "LEANN: Lightweight Embedding Strategy",
    full_text :=
      "LEANN (Lightweight Embedding Adaptive Neural Network) is MemGlyph's vector strategy.\n        Instead of storing full 1024-dimension vectors, LEANN stores semantic hints or seeds.\n        These seeds enable on-demand regeneration of embeddings, achieving 98.5% storage savings\n        while maintaining semantic search capabilities. LEANN allows model upgrades without rewriting artifacts.",
    entities := [("TECH", "LEANN", "LEANN"), ("PERCENT", "98.5%", "0.985"), ("TECH", "semantic search", "semantic search")] },
  { page_no := 3,
    title := "GlyphCase Modality",
    full_text :=
      "A GlyphCase is a SQLite-based container using SQLAR format for archival storage.\n        The sqlar table contains byte-for-byte representation of the source corpus, while accelerator\n        tables provide fast queries. All accelerators are rebuildable from the canonical sqlar data.\n        This enables atomic operations and efficient distribution of large document collections.",
    entities := [("TECH", "GlyphCase", "GlyphCase"), ("TECH", "SQLite", "SQLite"), ("TECH", "SQLAR", "SQLAR")] },
  { page_no := 4,
    title := "FTS5 Full-Text Search",
    full_text :=
      "MemGlyph uses SQLite's FTS5 extension for keyword search with BM25 ranking.\n        The meta_fts virtual table indexes page titles, tags, entities, and full text content.\n        FTS5 provides fast filtering to 100-200 candidates before semantic reranking.\n        Snippet generation highlights matching terms with configurable context windows.",
    entities := [("TECH", "FTS5", "FTS5"), ("TECH", "BM25", "BM25"), ("TECH", "SQLite", "SQLite")] },
  { page_no := 5,
    title := "Entity Extraction and Normalization",
    full_text :=
      "MemGlyph extracts named entities using Google LangExtract. Entities include organizations,\n        dates, locations, and technical terms. Normalized values enable faceted search and entity-based\n        retrieval boosting. Cross-document entity linking tracks entity occurrences across the corpus\n        with Wikidata QID references where available.",
    entities := [("TECH", "LangExtract", "Google LangExtract"), ("ORG", "Google", "Google LLC"), ("TECH", "Wikidata", "Wikidata")] },
  { page_no := 6,
    title := "Graph-Based Retrieval",
    full_text :=
      "The node_index and edges tables enable graph traversal queries. Predicates like cites,\n        part_of, and caption_of represent semantic relationships between pages and regions.\n        BFS traversal finds connected content within N hops. Graph expansion augments keyword\n        and semantic results with relationship-based discovery.",
    entities := [("TECH", "BFS", "breadth-first search"), ("TECH", "graph traversal", "graph traversal")] },
  { page_no := 7,
    title := "Hybrid Retrieval Architecture",
    full_text :=
      "MemGlyph combines multiple retrieval signals in a fusion ranking system.\n        FTS5 provides keyword filtering (35% weight), vector search adds semantic understanding (40% weight),\n        entity matching contributes structured boosting (25% weight), and graph expansion discovers\n        related content. This hybrid approach outperforms single-method retrieval.",
    entities := [("PERCENT", "35%", "0.35"), ("PERCENT", "40%", "0.40"), ("PERCENT", "25%", "0.25"), ("TECH", "hybrid retrieval", "hybrid retrieval")] },
  { page_no := 8,
    title := "Verification and Provenance",
    full_text :=
      "Every MemGlyph artifact includes cryptographic verification. Content hashes (SHA256) anchor\n        regions to prevent tampering. The ledger tracks all operations with timestamps and signatures.\n        Merkle checkpoints create temporal snapshots. Ed25519 signatures prove authorship.\n        External anchors on Ethereum or IPFS provide additional trust.",
    entities := [("TECH", "SHA256", "SHA-256"), ("TECH", "Merkle", "Merkle tree"), ("TECH", "Ed25519", "Ed25519"), ("TECH", "Ethereum", "Ethereum"), ("TECH", "IPFS", "IPFS")] }
]

/-- One element of the `EDGES` constant.  Weights are the script's float
literals, which all denote the corresponding decimal fractions here modelled
as rationals (every claim about them concerns only order/equality within
`[0, 1]`, which is unaffected). -/
structure Edge where
  fromPage : Nat
  toPage : Nat
  pred : String
  weight : Rat
  deriving DecidableEq

def EDGES : List Edge := [
  { fromPage := 1, toPage := 2, pred := "cites", weight := (0.9 : Rat) },
  { fromPage := 1, toPage := 3, pred := "cites", weight := (0.85 : Rat) },
  { fromPage := 1, toPage := 7, pred := "part_of", weight := (1.0 : Rat) },
  { fromPage := 2, toPage := 7, pred := "cites", weight := (0.8 : Rat) },
  { fromPage := 3, toPage := 4, pred := "cites", weight := (0.75 : Rat) },
  { fromPage := 4, toPage := 7, pred := "cites", weight := (0.9 : Rat) },
  { fromPage := 5, toPage := 7, pred := "cites", weight := (0.85 : Rat) },
  { fromPage := 6, toPage := 7, pred := "cites", weight := (0.8 : Rat) },
  { fromPage := 7, toPage := 2, pred := "cites", weight := (0.9 : Rat) },
  { fromPage := 7, toPage := 4, pred := "cites", weight := (0.85 : Rat) },
  { fromPage := 8, toPage := 1, pred := "part_of", weight := (0.95 : Rat) }
]

/-- `DOC_ID = "sha256:memglyph_demo_" + sha256(b"memglyph_sample_capsule").hexdigest()[:16]`. -/
def DOC_ID : String :=
  "sha256:memglyph_demo_" ++ (sha256hex "memglyph_sample_capsule").take 16

/-- The gid the script builds with `f"{DOC_ID}#p{n}"`. -/
def gidFor (n : Nat) : String :=
  DOC_ID ++ "#p" ++ toString n

/-- The signer DID used throughout the script. -/
def SIGNER : String := "did:key:z6MkhaXgBZDvotDkL5257faiztiGiC2QtKLGpbnnEGta2doK"

/-! ### `create_mock_png` and the `sqlar` archive table -/

/-- The constant byte string `create_mock_png` returns (from its hex literal). -/
def mockPngBytes : List Nat :=
  [0x89, 0x50, 0x4e, 0x47, 0x0d, 0x0a, 0x1a, 0x0a, 0x00, 0x00, 0x00, 0x0d, 0x49, 0x48, 0x44, 0x52,
   0x00, 0x00, 0x00, 0x01, 0x00, 0x00, 0x00, 0x01, 0x08, 0x02, 0x00, 0x00, 0x00, 0x90, 0x77, 0x53,
   0xde, 0x00, 0x00, 0x00, 0x0c, 0x49, 0x44, 0x41, 0x54, 0x08, 0x99, 0x51, 0x63, 0x00, 0x00, 0x00,
   0x02, 0x00, 0x01, 0x32, 0x26, 0x78, 0x0a, 0x00, 0x00, 0x00, 0x00, 0x49, 0x45, 0x4e, 0x44, 0xae,
   0x42, 0x60, 0x82]

/-- `create_mock_png(page_no, title)`: ignores both arguments and returns the
fixed minimal PNG. -/
def create_mock_png (_page_no : Nat) (_title : String) : List Nat :=
  mockPngBytes

/-- Python `f"{n:04d}"` for natural `n`. -/
def pad4 (n : Nat) : String :=
  let s := toString n
  String.mk (List.replicate (4 - s.length) '0') ++ s

/-- A row of the `sqlar` table. -/
structure SqlarRow where
  name : String
  mode : Nat
  mtime : Int
  sz : Nat
  data : List Nat
  deriving DecidableEq

/-- `json.dumps({"format": "memglyph-ledger-v1", "created": created})`,
encoded to UTF-8: the bytes stored at `ledger/ledger.log`. -/
def ledgerContent (created : String) : List Nat :=
  strBytes ("\x7b\"format\": \"memglyph-ledger-v1\", \"created\": " ++ pyJsonStr created ++ "\x7d")

/-- The page rows of the `sqlar` table, in insertion order.  Calls to
`datetime.now(...)` are numbered in program order: the page loop makes calls
0–7 (`int(....timestamp())`, via `epochInt`). -/
def sqlarPageRows (epochInt : Nat → Int) : List SqlarRow :=
  List.zipWith (fun j p =>
      { name := "glyphs/page_" ++ pad4 p.page_no ++ ".mgx.png"
        mode := 33188
        mtime := epochInt j
        sz := (create_mock_png p.page_no p.title).length
        data := create_mock_png p.page_no p.title : SqlarRow })
    (List.range PAGES.length) PAGES

/-- All rows of the `sqlar` table in insertion order: the page rows followed
by the ledger entry, whose JSON body uses now()-call 8 (`.isoformat()`) and
whose mtime uses call 9. -/
def sqlarRows (epochInt : Nat → Int) (iso : Nat → String) : List SqlarRow :=
  sqlarPageRows epochInt ++
  [{ name := "ledger/ledger.log"
     mode := 33188
     mtime := epochInt 9
     sz := (ledgerContent (iso 8)).length
     data := ledgerContent (iso 8) }]

/-! ### `ledger_blocks`, `checkpoints` -/

structure LedgerBlockRow where
  block_id : String
  ts : String
  prev : String
  entries_json : String
  signer : String
  sig : String
  anchors_json : String
  deriving DecidableEq

/-- `json.dumps` of one ledger operation entry. -/
def entryJson (gid sha title : String) : String :=
  "\x7b\"op\": \"ADD\", \"gid\": " ++ pyJsonStr gid ++ ", \"content_sha\": " ++ pyJsonStr sha ++
  ", \"metadata\": \x7b\"title\": " ++ pyJsonStr title ++ "\x7d\x7d"

/-- The operation entries of the initial block, before serialization:
`(gid, content_sha, title)` for `i in range(1, len(PAGES) + 1)`. -/
def ledgerEntries : List (String × String × String) :=
  (List.range' 1 PAGES.length).map fun i =>
    let p := PAGES.getD (i - 1) emptyPage
    (gidFor i, sha256hex p.full_text, p.title)

/-- `json.dumps([{"op": "ADD", "gid": ..., "content_sha": ...,
"metadata": {"title": ...}} ...])`: the serialized operation entries. -/
def entriesJson : String :=
  "[" ++ String.intercalate ", "
    (ledgerEntries.map fun t => entryJson t.1 t.2.1 t.2.2) ++ "]"

/-- The single row of `ledger_blocks` (its `ts` is now()-call 10). -/
def ledgerBlockRow (iso : Nat → String) : LedgerBlockRow :=
  { block_id := "b001"
    ts := iso 10
    prev := "genesis"
    entries_json := entriesJson
    signer := SIGNER
    sig := "ed25519:mock_signature_" ++ (sha256hex "demo").take 32
    anchors_json := "[\"ipfs:QmDemo123\"]" }

structure CheckpointRow where
  epoch : String
  merkle_root : String
  pages_count : Nat
  anchors_json : String
  created_ts : String
  deriving DecidableEq

/-- The single row of `checkpoints` (`epoch` is now()-call 11, `created_ts`
now()-call 12). -/
def checkpointRow (iso : Nat → String) : CheckpointRow :=
  { epoch := iso 11
    merkle_root := sha256hex "checkpoint_demo"
    pages_count := PAGES.length
    anchors_json := "[\"ipfs:QmCheckpoint123\"]"
    created_ts := iso 12 }

/-! ### Graph tables: `node_index`, `edges`, `leann_neighbors` -/

structure NodeRow where
  gid : String
  doc_id : String
  page_no : Nat
  deriving DecidableEq

def nodeIndexRows : List NodeRow :=
  PAGES.map fun p => { gid := gidFor p.page_no, doc_id := DOC_ID, page_no := p.page_no }

structure EdgeRow where
  fromNode : Nat
  toNode : Nat
  pred : String
  weight : Rat
  ts : String
  deriving DecidableEq

/-- The rows of `edges` in insertion order (now()-calls 14–24). -/
def edgeRows (iso : Nat → String) : List EdgeRow :=
  List.zipWith (fun j e =>
      { fromNode := e.fromPage, toNode := e.toPage, pred := e.pred,
        weight := e.weight, ts := iso (14 + j) : EdgeRow })
    (List.range EDGES.length) EDGES

structure NeighborRow where
  gid : String
  neighbor : String
  score : Rat
  reason : String
  deriving DecidableEq

/-- `INSERT OR IGNORE` keyed on the primary key `(gid, neighbor)`. -/
def insertOrIgnoreNeighbor (rows : List NeighborRow) (r : NeighborRow) : List NeighborRow :=
  if rows.any (fun x => x.gid = r.gid ∧ x.neighbor = r.neighbor) then rows else rows ++ [r]

/-- The hint row the script builds from one edge. -/
def hintOfEdge (e : Edge) : NeighborRow :=
  { gid := gidFor e.fromPage, neighbor := gidFor e.toPage,
    score := e.weight, reason := "graph-" ++ e.pred }

/-- The rows of `leann_neighbors`. -/
def neighborRows : List NeighborRow :=
  EDGES.foldl (fun acc e => insertOrIgnoreNeighbor acc (hintOfEdge e)) []

/-! ### `meta_index`, `entities` -/

structure MetaRow where
  gid : String
  doc_id : String
  page_no : Nat
  title : String
  tags : String
  entities : String
  full_text : String
  updated_ts : String
  deriving DecidableEq

/-- The rows of `meta_index` (now()-calls 25–32).  The `entities` column is
`json.dumps([e[1] for e in page["entities"]])`. -/
def metaIndexRows (iso : Nat → String) : List MetaRow :=
  List.zipWith (fun j p =>
      { gid := gidFor p.page_no
        doc_id := DOC_ID
        page_no := p.page_no
        title := p.title
        tags := "memglyph demo documentation"
        entities := pyJsonStrList (p.entities.map fun e => e.2.1)
        full_text := p.full_text
        updated_ts := iso (25 + j) : MetaRow })
    (List.range PAGES.length) PAGES

structure EntityRow where
  gid : String
  entity_type : String
  entity_text : String
  normalized_value : String
  confidence : Rat
  deriving DecidableEq

/-- The rows of `entities` in insertion order. -/
def entityRows : List EntityRow :=
  PAGES.flatMap fun p =>
    p.entities.map fun e =>
      { gid := gidFor p.page_no, entity_type := e.1, entity_text := e.2.1,
        normalized_value := e.2.2, confidence := (0.95 : Rat) }

/-! ### `leann_meta`, `leann_vec`, `glyph_receipts` -/

def model_id : String := "gte-small-384"

structure LeannMetaRow where
  gid : String
  model_id : String
  scope : String
  doc_id : String
  page_no : Nat
  dim : Nat
  quant : String
  content_sha : String
  text_extraction : String
  normalization : String
  updated_utc : String
  recompute : Nat
  deriving DecidableEq

/-- The rows of `leann_meta` (now()-calls 33–40). -/
def leannMetaRows (iso : Nat → String) : List LeannMetaRow :=
  List.zipWith (fun j p =>
      { gid := gidFor p.page_no
        model_id := model_id
        scope := "page"
        doc_id := DOC_ID
        page_no := p.page_no
        dim := 384
        quant := "float32"
        content_sha := sha256hex p.full_text
        text_extraction := "native"
        normalization := "unicode-nfkc"
        updated_utc := iso (33 + j)
        recompute := 0 : LeannMetaRow })
    (List.range PAGES.length) PAGES

structure LeannVecRow where
  gid : String
  model_id : String
  embedding : List Nat
  cached_ts : String
  deriving DecidableEq

/-- The rows of `leann_vec` (now()-calls 41–48). -/
def leannVecRows (iso : Nat → String) : List LeannVecRow :=
  List.zipWith (fun j p =>
      { gid := gidFor p.page_no
        model_id := model_id
        embedding := mock_vector_384d p.full_text
        cached_ts := iso (41 + j) : LeannVecRow })
    (List.range PAGES.length) PAGES

structure ReceiptRow where
  gid : String
  content_sha : String
  signer : String
  sig : String
  ts : String
  epoch : String
  merkle_root : String
  anchors_json : String
  deriving DecidableEq

/-- The rows of `glyph_receipts`.  The shared `epoch` is now()-call 49,
captured once before the loop; each row's `ts` is one of calls 50–57. -/
def receiptRows (iso : Nat → String) : List ReceiptRow :=
  List.zipWith (fun j p =>
      let gid := gidFor p.page_no
      let sha := sha256hex p.full_text
      { gid := gid
        content_sha := sha
        signer := SIGNER
        sig := "ed25519:mock_sig_" ++ (sha256hex (gid ++ sha)).take 32
        ts := iso (50 + j)
        epoch := iso 49
        merkle_root := sha256hex "checkpoint_demo"
        anchors_json := "[\"ipfs:QmDemo123\"]" : ReceiptRow })
    (List.range PAGES.length) PAGES

/-! ### The checkpoint merkle root as the specification describes it

The script stores `sha256(b"checkpoint_demo")` as the checkpoint's
`merkle_root`.  To compare, the following definitions follow the
specification's words (§4.6 `checkpoint()`): "computes a merkle root over
the content hashes of all current items (leaves sorted by gid for
determinism)".  Internal nodes hash the concatenation of their children's
hex digests; a leftover odd node is promoted to the next level. -/

def merklePairUp : List String → List String
  | [] => []
  | [x] => [x]
  | x :: y :: rest => sha256hex (x ++ y) :: merklePairUp rest

def merkleRootAux : Nat → List String → String
  | _, [] => sha256hex ""
  | _, [x] => x
  | 0, l => sha256hex (String.join l)
  | fuel + 1, l => merkleRootAux fuel (merklePairUp l)

def merkleRootSpec (leaves : List String) : String :=
  merkleRootAux leaves.length leaves

/-- Lexicographic (code-point) order on character lists, as Python compares
the (ASCII) gid strings. -/
def lexLe : List Char → List Char → Bool
  | [], _ => true
  | _ :: _, [] => false
  | x :: xs, y :: ys =>
    if x.toNat = y.toNat then lexLe xs ys else decide (x.toNat < y.toNat)

def strLe (a b : String) : Bool := lexLe a.data b.data

/-- Insertion sort by the gid component (stable, total for our use). -/
def insertByGid (x : String × String) : List (String × String) → List (String × String)
  | [] => [x]
  | y :: ys => if strLe x.1 y.1 then x :: y :: ys else y :: insertByGid x ys

def sortByGid (l : List (String × String)) : List (String × String) :=
  l.foldr insertByGid []

/-- The merkle root §4.6 prescribes for the capsule's current items: leaves
are the pages' content hashes, sorted by gid. -/
def checkpointMerkleRootSpec : String :=
  merkleRootSpec
    ((sortByGid (PAGES.map fun p => (gidFor p.page_no, sha256hex p.full_text))).map fun t => t.2)

/-! ### General lemmas -/

theorem string_append_left_cancel {s t u : String} (h : s ++ t = s ++ u) : t = u := by
  have h2 := congrArg String.data h
  rw [String.data_append, String.data_append] at h2
  exact String.ext (List.append_cancel_left h2)

theorem length_mk (l : List Char) : (String.mk l).length = l.length := rfl

theorem length_flatMap_hexPair (bs : List Nat) :
    (bs.flatMap fun b => [hexDigit (b / 16 % 16), hexDigit (b % 16)]).length = 2 * bs.length := by
  induction bs with
  | nil => rfl
  | cons b bs ih => simp [List.flatMap_cons, ih]; ring

theorem sha256Digest_length (m : List Nat) : (sha256Digest m).length = 32 := by
  simp [sha256Digest, wordBytes]

/-- Every hex digest our SHA-256 produces has 64 characters. -/
theorem sha256hex_length (s : String) : (sha256hex s).length = 64 := by
  unfold sha256hex bytesToHex
  rw [length_mk, length_flatMap_hexPair, sha256Digest_length]

theorem packF32LE_length (k : Int) : (packF32LE k).length = 4 := by
  by_cases h : k = 0 <;> simp [packF32LE, h]

theorem genUniformNums_length (n : Nat) : ∀ s : MTState, (genUniformNums n s).length = n := by
  induction n with
  | zero => intro s; rfl
  | succ n ih => intro s; simp [genUniformNums, ih]

theorem flatMap_packF32LE_length (l : List Int) :
    (l.flatMap packF32LE).length = 4 * l.length := by
  induction l with
  | nil => rfl
  | cons x xs ih => simp [List.flatMap_cons, packF32LE_length, ih]; ring

/-! ### Claims -/

/-- C4: the embedding function is deterministic — two invocations on the
same text yield byte-identical vectors — and its output has the fixed
length of 384 little-endian binary32 floats, i.e. 1536 bytes. -/
theorem mock_vector_deterministic_fixed_length (t t' : String) (h : t = t') :
    mock_vector_384d t = mock_vector_384d t' ∧ (mock_vector_384d t).length = 1536 := by
  subst h
  refine ⟨rfl, ?_⟩
  simp only [mock_vector_384d]
  rw [flatMap_packF32LE_length, genUniformNums_length]

/-- Witness for C4 at the concrete text of page 1. -/
theorem mock_vector_deterministic_fixed_length_witness :
    mock_vector_384d "a" = mock_vector_384d "a" ∧ (mock_vector_384d "a").length = 1536 :=
  mock_vector_deterministic_fixed_length "a" "a" rfl

/-- The `sqlar` rows, written out (the abstract clock values stay symbolic). -/
theorem sqlarRows_explicit (epochInt : Nat → Int) (iso : Nat → String) :
    sqlarRows epochInt iso =
      [{ name := "glyphs/page_0001.mgx.png", mode := 33188, mtime := epochInt 0, sz := 67, data := mockPngBytes },
       { name := "glyphs/page_0002.mgx.png", mode := 33188, mtime := epochInt 1, sz := 67, data := mockPngBytes },
       { name := "glyphs/page_0003.mgx.png", mode := 33188, mtime := epochInt 2, sz := 67, data := mockPngBytes },
       { name := "glyphs/page_0004.mgx.png", mode := 33188, mtime := epochInt 3, sz := 67, data := mockPngBytes },
       { name := "glyphs/page_0005.mgx.png", mode := 33188, mtime := epochInt 4, sz := 67, data := mockPngBytes },
       { name := "glyphs/page_0006.mgx.png", mode := 33188, mtime := epochInt 5, sz := 67, data := mockPngBytes },
       { name := "glyphs/page_0007.mgx.png", mode := 33188, mtime := epochInt 6, sz := 67, data := mockPngBytes },
       { name := "glyphs/page_0008.mgx.png", mode := 33188, mtime := epochInt 7, sz := 67, data := mockPngBytes },
       { name := "ledger/ledger.log", mode := 33188, mtime := epochInt 9,
         sz := (ledgerContent (iso 8)).length, data := ledgerContent (iso 8) }] := rfl

/-- C9: for every row written to `sqlar`, the stored `sz` equals the byte
length of the stored `data` blob. -/
theorem sqlar_sz_matches_data (epochInt : Nat → Int) (iso : Nat → String) :
    ∀ r ∈ sqlarRows epochInt iso, r.sz = r.data.length := by
  intro r hr
  rw [sqlarRows_explicit] at hr
  fin_cases hr <;> rfl

/-- Witness for C9: the first archive row. -/
theorem sqlar_sz_matches_data_witness :
    ({ name := "glyphs/page_0001.mgx.png", mode := 33188, mtime := 0, sz := 67,
       data := mockPngBytes : SqlarRow }).sz
      = ({ name := "glyphs/page_0001.mgx.png", mode := 33188, mtime := 0, sz := 67,
           data := mockPngBytes : SqlarRow }).data.length :=
  sqlar_sz_matches_data (fun _ => 0) (fun _ => "")
    { name := "glyphs/page_0001.mgx.png", mode := 33188, mtime := 0, sz := 67, data := mockPngBytes }
    (by rw [sqlarRows_explicit]; simp)

/-- The `edges` rows, written out. -/
theorem edgeRows_explicit (iso : Nat → String) :
    edgeRows iso =
      [{ fromNode := 1, toNode := 2, pred := "cites", weight := (0.9 : Rat), ts := iso 14 },
       { fromNode := 1, toNode := 3, pred := "cites", weight := (0.85 : Rat), ts := iso 15 },
       { fromNode := 1, toNode := 7, pred := "part_of", weight := (1.0 : Rat), ts := iso 16 },
       { fromNode := 2, toNode := 7, pred := "cites", weight := (0.8 : Rat), ts := iso 17 },
       { fromNode := 3, toNode := 4, pred := "cites", weight := (0.75 : Rat), ts := iso 18 },
       { fromNode := 4, toNode := 7, pred := "cites", weight := (0.9 : Rat), ts := iso 19 },
       { fromNode := 5, toNode := 7, pred := "cites", weight := (0.85 : Rat), ts := iso 20 },
       { fromNode := 6, toNode := 7, pred := "cites", weight := (0.8 : Rat), ts := iso 21 },
       { fromNode := 7, toNode := 2, pred := "cites", weight := (0.9 : Rat), ts := iso 22 },
       { fromNode := 7, toNode := 4, pred := "cites", weight := (0.85 : Rat), ts := iso 23 },
       { fromNode := 8, toNode := 1, pred := "part_of", weight := (0.95 : Rat), ts := iso 24 }] := rfl

/-- C5: every edge row has a weight in `[0, 1]`, and the key
`(fromNode, toNode, pred)` is unique across the rows (so at most one edge
per `(from, to, predicate)` triple). -/
theorem edges_weight_range_and_key_unique (iso : Nat → String) :
    (∀ e ∈ edgeRows iso, 0 ≤ e.weight ∧ e.weight ≤ 1) ∧
    ((edgeRows iso).map fun e => (e.fromNode, e.toNode, e.pred)).Nodup := by
  constructor
  · intro e he
    rw [edgeRows_explicit] at he
    fin_cases he <;> exact ⟨by norm_num, by norm_num⟩
  · have h : ((edgeRows iso).map fun e => (e.fromNode, e.toNode, e.pred)) =
      [(1, 2, "cites"), (1, 3, "cites"), (1, 7, "part_of"), (2, 7, "cites"), (3, 4, "cites"),
       (4, 7, "cites"), (5, 7, "cites"), (6, 7, "cites"), (7, 2, "cites"), (7, 4, "cites"),
       (8, 1, "part_of")] := rfl
    rw [h]
    decide

/-- Witness for C5: the first edge row. -/
theorem edges_weight_range_and_key_unique_witness :
    0 ≤ ({ fromNode := 1, toNode := 2, pred := "cites", weight := (0.9 : Rat),
           ts := "" : EdgeRow }).weight ∧
    ({ fromNode := 1, toNode := 2, pred := "cites", weight := (0.9 : Rat),
       ts := "" : EdgeRow }).weight ≤ 1 :=
  (edges_weight_range_and_key_unique (fun _ => "")).1
    { fromNode := 1, toNode := 2, pred := "cites", weight := (0.9 : Rat), ts := "" }
    (by rw [edgeRows_explicit]; simp)

/-- C7: every archive entry is keyed either by
`glyphs/page_{page_no:04d}.mgx.png` for some page (with the page number
zero-padded to four digits and exactly one such entry per page) or by
`ledger/ledger.log` (of which there is exactly one). -/
theorem sqlar_names_pattern (epochInt : Nat → Int) (iso : Nat → String) :
    (∀ n ∈ (sqlarRows epochInt iso).map (fun r => r.name),
       n = "ledger/ledger.log" ∨
       ∃ p ∈ PAGES, n = "glyphs/page_" ++ pad4 p.page_no ++ ".mgx.png") ∧
    (∀ p ∈ PAGES,
       ((sqlarRows epochInt iso).map (fun r => r.name)).count
         ("glyphs/page_" ++ pad4 p.page_no ++ ".mgx.png") = 1) ∧
    ((sqlarRows epochInt iso).map (fun r => r.name)).count "ledger/ledger.log" = 1 := by
  have e : ((sqlarRows epochInt iso).map fun r => r.name) =
      ["glyphs/page_0001.mgx.png", "glyphs/page_0002.mgx.png", "glyphs/page_0003.mgx.png",
       "glyphs/page_0004.mgx.png", "glyphs/page_0005.mgx.png", "glyphs/page_0006.mgx.png",
       "glyphs/page_0007.mgx.png", "glyphs/page_0008.mgx.png", "ledger/ledger.log"] := rfl
  refine ⟨?_, ?_, ?_⟩
  · intro n hn
    rw [e] at hn
    fin_cases hn <;> decide
  · intro p hp
    rw [e]
    fin_cases hp <;> decide
  · rw [e]; decide

/-- Witness for C7: the page-1 entry occurs exactly once. -/
theorem sqlar_names_pattern_witness :
    ((sqlarRows (fun _ => 0) (fun _ => "")).map (fun r => r.name)).count
      ("glyphs/page_" ++ pad4 1 ++ ".mgx.png") = 1 :=
  (sqlar_names_pattern (fun _ => 0) (fun _ => "")).2.1 (PAGES.getD 0 emptyPage) (by decide)

/-- The `sqlar` page rows, written out. -/
theorem sqlarPageRows_explicit (epochInt : Nat → Int) :
    sqlarPageRows epochInt =
      [{ name := "glyphs/page_0001.mgx.png", mode := 33188, mtime := epochInt 0, sz := 67, data := mockPngBytes },
       { name := "glyphs/page_0002.mgx.png", mode := 33188, mtime := epochInt 1, sz := 67, data := mockPngBytes },
       { name := "glyphs/page_0003.mgx.png", mode := 33188, mtime := epochInt 2, sz := 67, data := mockPngBytes },
       { name := "glyphs/page_0004.mgx.png", mode := 33188, mtime := epochInt 3, sz := 67, data := mockPngBytes },
       { name := "glyphs/page_0005.mgx.png", mode := 33188, mtime := epochInt 4, sz := 67, data := mockPngBytes },
       { name := "glyphs/page_0006.mgx.png", mode := 33188, mtime := epochInt 5, sz := 67, data := mockPngBytes },
       { name := "glyphs/page_0007.mgx.png", mode := 33188, mtime := epochInt 6, sz := 67, data := mockPngBytes },
       { name := "glyphs/page_0008.mgx.png", mode := 33188, mtime := epochInt 7, sz := 67, data := mockPngBytes }] := rfl

/-- C10: `create_mock_png` ignores its `(page_no, title)` input, so all
archived page entries hold byte-identical data with a single SHA-256
content hash, while their paths are pairwise distinct. -/
theorem mock_png_constant_shared_hash (epochInt : Nat → Int) :
    (∀ (p p' : Nat) (t t' : String), create_mock_png p t = create_mock_png p' t') ∧
    (∀ r ∈ sqlarPageRows epochInt, ∀ r' ∈ sqlarPageRows epochInt,
       r.data = r'.data ∧
       bytesToHex (sha256Digest r.data) = bytesToHex (sha256Digest r'.data) ∧
       (r = r' ∨ r.name ≠ r'.name)) := by
  refine ⟨fun _ _ _ _ => rfl, ?_⟩
  intro r hr r' hr'
  rw [sqlarPageRows_explicit] at hr hr'
  fin_cases hr <;> fin_cases hr' <;> refine ⟨rfl, rfl, ?_⟩ <;> dsimp only <;>
    first | exact Or.inl rfl | exact Or.inr (by decide)

/-- Witness for C10: the first two archived page rows share data (and hash)
but not the path. -/
theorem mock_png_constant_shared_hash_witness :
    (((sqlarPageRows (fun _ => 0)).getD 0 { name := "", mode := 0, mtime := 0, sz := 0, data := [] }).data
       = ((sqlarPageRows (fun _ => 0)).getD 1 { name := "", mode := 0, mtime := 0, sz := 0, data := [] }).data) ∧
    (bytesToHex (sha256Digest (((sqlarPageRows (fun _ => 0)).getD 0 { name := "", mode := 0, mtime := 0, sz := 0, data := [] }).data))
       = bytesToHex (sha256Digest (((sqlarPageRows (fun _ => 0)).getD 1 { name := "", mode := 0, mtime := 0, sz := 0, data := [] }).data))) ∧
    (((sqlarPageRows (fun _ => 0)).getD 0 { name := "", mode := 0, mtime := 0, sz := 0, data := [] })
       = ((sqlarPageRows (fun _ => 0)).getD 1 { name := "", mode := 0, mtime := 0, sz := 0, data := [] }) ∨
     ((sqlarPageRows (fun _ => 0)).getD 0 { name := "", mode := 0, mtime := 0, sz := 0, data := [] }).name
       ≠ ((sqlarPageRows (fun _ => 0)).getD 1 { name := "", mode := 0, mtime := 0, sz := 0, data := [] }).name) :=
  (mock_png_constant_shared_hash (fun _ => 0)).2
    ((sqlarPageRows (fun _ => 0)).getD 0 { name := "", mode := 0, mtime := 0, sz := 0, data := [] })
    (by decide)
    ((sqlarPageRows (fun _ => 0)).getD 1 { name := "", mode := 0, mtime := 0, sz := 0, data := [] })
    (by decide)

/-- The gids the script derives from the pages, with no duplicates. -/
theorem pageGids_nodup : (PAGES.map fun p => gidFor p.page_no).Nodup := by decide

theorem pageGids_form :
    ∀ g ∈ PAGES.map (fun p => gidFor p.page_no),
      ∃ p ∈ PAGES, g = DOC_ID ++ "#p" ++ toString p.page_no := by
  intro g hg
  obtain ⟨p, hp, rfl⟩ := List.mem_map.mp hg
  exact ⟨p, hp, rfl⟩

/-- C6: every gid written into `node_index`, `meta_index`, `entities`,
`leann_meta`, `leann_vec` and `glyph_receipts` has the form
`{doc_id}#p{page_no}`, and within each table the respective primary key
(`gid`, `(gid, entity_type, entity_text)` or `(gid, model_id)`) occurs at
most once. -/
theorem gids_well_formed_and_unique (iso : Nat → String) :
    ((∀ g ∈ nodeIndexRows.map (fun r => r.gid),
        ∃ p ∈ PAGES, g = DOC_ID ++ "#p" ++ toString p.page_no) ∧
      (nodeIndexRows.map (fun r => r.gid)).Nodup) ∧
    ((∀ g ∈ (metaIndexRows iso).map (fun r => r.gid),
        ∃ p ∈ PAGES, g = DOC_ID ++ "#p" ++ toString p.page_no) ∧
      ((metaIndexRows iso).map (fun r => r.gid)).Nodup) ∧
    ((∀ k ∈ entityRows.map (fun r => (r.gid, r.entity_type, r.entity_text)),
        ∃ p ∈ PAGES, k.1 = DOC_ID ++ "#p" ++ toString p.page_no) ∧
      (entityRows.map (fun r => (r.gid, r.entity_type, r.entity_text))).Nodup) ∧
    ((∀ k ∈ (leannMetaRows iso).map (fun r => (r.gid, r.model_id)),
        ∃ p ∈ PAGES, k.1 = DOC_ID ++ "#p" ++ toString p.page_no) ∧
      ((leannMetaRows iso).map (fun r => (r.gid, r.model_id))).Nodup) ∧
    ((∀ k ∈ (leannVecRows iso).map (fun r => (r.gid, r.model_id)),
        ∃ p ∈ PAGES, k.1 = DOC_ID ++ "#p" ++ toString p.page_no) ∧
      ((leannVecRows iso).map (fun r => (r.gid, r.model_id))).Nodup) ∧
    ((∀ g ∈ (receiptRows iso).map (fun r => r.gid),
        ∃ p ∈ PAGES, g = DOC_ID ++ "#p" ++ toString p.page_no) ∧
      ((receiptRows iso).map (fun r => r.gid)).Nodup) := by
  have epair : ∀ k ∈ PAGES.map (fun p => (gidFor p.page_no, model_id)),
      ∃ p ∈ PAGES, k.1 = DOC_ID ++ "#p" ++ toString p.page_no := by
    intro k hk
    obtain ⟨p, hp, rfl⟩ := List.mem_map.mp hk
    exact ⟨p, hp, rfl⟩
  have hpairInj : Function.Injective (fun g : String => (g, model_id)) :=
    fun a b h => congrArg Prod.fst h
  have hpairNodup : (PAGES.map fun p => (gidFor p.page_no, model_id)).Nodup := by
    have e : (PAGES.map fun p => (gidFor p.page_no, model_id)) =
        (PAGES.map fun p => gidFor p.page_no).map (fun g => (g, model_id)) := by
      rw [List.map_map]; rfl
    rw [e]
    exact pageGids_nodup.map hpairInj
  refine ⟨⟨pageGids_form, pageGids_nodup⟩, ⟨pageGids_form, pageGids_nodup⟩,
          ⟨?_, by decide⟩, ⟨epair, hpairNodup⟩, ⟨epair, hpairNodup⟩,
          ⟨pageGids_form, pageGids_nodup⟩⟩
  intro k hk
  simp only [entityRows, List.mem_map, List.mem_flatMap] at hk
  obtain ⟨r, ⟨p, hp, a, ha, hra⟩, rfl⟩ := hk
  subst hra
  exact ⟨p, hp, rfl⟩

/-- Witness for C6: the gid of the first node row. -/
theorem gids_well_formed_and_unique_witness :
    ∃ p ∈ PAGES, gidFor 1 = DOC_ID ++ "#p" ++ toString p.page_no :=
  (gids_well_formed_and_unique (fun _ => "")).1.1 (gidFor 1) (by decide)

/-- The `INSERT OR IGNORE` fold never skips a row: the 11 edges have
pairwise distinct `(gid, neighbor)` keys, so the hint table is exactly the
image of the edges. -/
theorem neighborRows_eq_map : neighborRows = EDGES.map hintOfEdge := rfl

/-- C8: `leann_neighbors` and `edges` determine each other — every hint row
comes from an edge whose endpoints map (via the page→gid mapping realized by
`node_index`) to its `gid` and `neighbor`, with `score` the edge weight and
`reason` the predicate prefixed by `graph-`; conversely every edge yields
such a hint row, and the endpoint pages are present in `node_index`. -/
theorem neighbor_hints_match_edges :
    (∀ h ∈ neighborRows, ∃ e ∈ EDGES,
        h.gid = gidFor e.fromPage ∧ h.neighbor = gidFor e.toPage ∧
        h.score = e.weight ∧ h.reason = "graph-" ++ e.pred) ∧
    (∀ e ∈ EDGES, ∃ h ∈ neighborRows,
        h.gid = gidFor e.fromPage ∧ h.neighbor = gidFor e.toPage ∧
        h.score = e.weight ∧ h.reason = "graph-" ++ e.pred) ∧
    (∀ e ∈ EDGES, ∃ nf ∈ nodeIndexRows, nf.page_no = e.fromPage ∧ nf.gid = gidFor e.fromPage ∧
        ∃ nt ∈ nodeIndexRows, nt.page_no = e.toPage ∧ nt.gid = gidFor e.toPage) := by
  refine ⟨?_, ?_, ?_⟩
  · intro h hh
    rw [neighborRows_eq_map] at hh
    obtain ⟨e, he, rfl⟩ := List.mem_map.mp hh
    exact ⟨e, he, rfl, rfl, rfl, rfl⟩
  · intro e he
    exact ⟨hintOfEdge e, by rw [neighborRows_eq_map]; exact List.mem_map_of_mem _ he,
           rfl, rfl, rfl, rfl⟩
  · intro e he
    fin_cases he <;> decide

/-- Witness for C8: the hint row generated by the first edge. -/
theorem neighbor_hints_match_edges_witness :
    ∃ h ∈ neighborRows,
      h.gid = gidFor ({ fromPage := 1, toPage := 2, pred := "cites",
                        weight := (0.9 : Rat) : Edge }).fromPage ∧
      h.neighbor = gidFor ({ fromPage := 1, toPage := 2, pred := "cites",
                             weight := (0.9 : Rat) : Edge }).toPage ∧
      h.score = ({ fromPage := 1, toPage := 2, pred := "cites",
                   weight := (0.9 : Rat) : Edge }).weight ∧
      h.reason = "graph-" ++ ({ fromPage := 1, toPage := 2, pred := "cites",
                                weight := (0.9 : Rat) : Edge }).pred :=
  neighbor_hints_match_edges.2.1
    { fromPage := 1, toPage := 2, pred := "cites", weight := (0.9 : Rat) }
    (List.mem_cons_self _ _)

/-- C1 (counterexample): at the concrete clock `iso n = toString n`, the
stored block's `block_id` is not the SHA-256 hex digest of the concatenation
of the previous block id, the serialized entries, the timestamp and the
signer — it is the 4-character literal `"b001"`, while every SHA-256 hex
digest has 64 characters. -/
theorem ledger_block_id_not_hash_counterexample :
    (ledgerBlockRow (fun n => toString n)).block_id ≠
      sha256hex ((ledgerBlockRow (fun n => toString n)).prev ++
        (ledgerBlockRow (fun n => toString n)).entries_json ++
        (ledgerBlockRow (fun n => toString n)).ts ++
        (ledgerBlockRow (fun n => toString n)).signer) := by
  intro h
  have hl := congrArg String.length h
  rw [sha256hex_length] at hl
  exact absurd hl (by decide)

/-- C1 (amended): the single ledger block's `block_id` is the fixed literal
`"b001"` (not derived by hashing), and its `prev` is the sentinel
`"genesis"`. -/
theorem ledger_block_literal_id_and_sentinel_prev (iso : Nat → String) :
    (ledgerBlockRow iso).block_id = "b001" ∧ (ledgerBlockRow iso).prev = "genesis" :=
  ⟨rfl, rfl⟩

set_option maxRecDepth 40000000 in
set_option maxHeartbeats 16000000 in
/-- C2 (counterexample): the stored checkpoint `merkle_root` — the digest of
the fixed placeholder string `"checkpoint_demo"` — differs from the merkle
root over the content hashes of the current items with leaves sorted by gid,
as §4.6 prescribes. -/
theorem checkpoint_merkle_root_counterexample :
    (checkpointRow (fun n => toString n)).merkle_root ≠ checkpointMerkleRootSpec := by
  decide

/-- C2 (amended): the checkpoint row's `merkle_root` is the constant SHA-256
digest of the placeholder `"checkpoint_demo"` (independent of the items'
content hashes), and its `pages_count` equals the number of current items. -/
theorem checkpoint_placeholder_root_and_count (iso : Nat → String) :
    (checkpointRow iso).merkle_root = sha256hex "checkpoint_demo" ∧
    (checkpointRow iso).pages_count = PAGES.length ∧
    (checkpointRow iso).pages_count = nodeIndexRows.length ∧
    (checkpointRow iso).pages_count = (metaIndexRows iso).length :=
  ⟨rfl, rfl, rfl, rfl⟩

def emptyReceipt : ReceiptRow :=
  { gid := "", content_sha := "", signer := "", sig := "", ts := "", epoch := "",
    merkle_root := "", anchors_json := "" }

def emptyLeannMeta : LeannMetaRow :=
  { gid := "", model_id := "", scope := "", doc_id := "", page_no := 0, dim := 0,
    quant := "", content_sha := "", text_extraction := "", normalization := "",
    updated_utc := "", recompute := 0 }

/-- C3 (counterexample): the receipts' `epoch` comes from a different
`datetime.now()` call (call 49) than the checkpoint's `epoch` (call 11), so
at the concrete clock `iso n = toString n` the first receipt's `epoch` does
not reference the stored checkpoint's `epoch`. -/
theorem receipt_epoch_mismatch_counterexample :
    ((receiptRows (fun n => toString n)).getD 0 emptyReceipt).epoch ≠
      (checkpointRow (fun n => toString n)).epoch := by
  decide

/-- C3 (amended): for every item (indexed by its position `j` among the
pages), the receipt row carries the item's gid, the same `merkle_root` as
the stored checkpoint, and a `content_sha` equal to the SHA-256 hex digest
of the item's full text, identical to the `content_sha` recorded for the
same gid in the ledger block's operation entries and in `leann_meta`; the
receipt's `epoch` is a timestamp taken when the receipts are created, which
need not equal the checkpoint's `epoch`. -/
theorem receipt_contents_consistent (iso : Nat → String) (j : Nat) (hj : j < PAGES.length) :
    (receiptRows iso).length = PAGES.length ∧
    ((receiptRows iso).getD j emptyReceipt).gid = gidFor (PAGES.getD j emptyPage).page_no ∧
    ((receiptRows iso).getD j emptyReceipt).merkle_root = (checkpointRow iso).merkle_root ∧
    ((receiptRows iso).getD j emptyReceipt).content_sha
      = sha256hex (PAGES.getD j emptyPage).full_text ∧
    ((leannMetaRows iso).getD j emptyLeannMeta).gid
      = ((receiptRows iso).getD j emptyReceipt).gid ∧
    ((leannMetaRows iso).getD j emptyLeannMeta).content_sha
      = ((receiptRows iso).getD j emptyReceipt).content_sha ∧
    (ledgerEntries.getD j ("", "", "")).1 = ((receiptRows iso).getD j emptyReceipt).gid ∧
    (ledgerEntries.getD j ("", "", "")).2.1
      = ((receiptRows iso).getD j emptyReceipt).content_sha ∧
    ((receiptRows iso).getD j emptyReceipt).epoch = iso 49 ∧
    (checkpointRow iso).epoch = iso 11 := by
  have hj8 : j < 8 := by rw [show PAGES.length = 8 from rfl] at hj; exact hj
  interval_cases j <;>
    exact ⟨rfl, rfl, rfl, rfl, rfl, rfl, rfl, rfl, rfl, rfl⟩

/-- Witness for C3 (amended) at `j = 0` with the clock `iso n = toString n`. -/
theorem receipt_contents_consistent_witness :
    (receiptRows (fun n => toString n)).length = PAGES.length ∧
    ((receiptRows (fun n => toString n)).getD 0 emptyReceipt).gid
      = gidFor (PAGES.getD 0 emptyPage).page_no ∧
    ((receiptRows (fun n => toString n)).getD 0 emptyReceipt).merkle_root
      = (checkpointRow (fun n => toString n)).merkle_root ∧
    ((receiptRows (fun n => toString n)).getD 0 emptyReceipt).content_sha
      = sha256hex (PAGES.getD 0 emptyPage).full_text ∧
    ((leannMetaRows (fun n => toString n)).getD 0 emptyLeannMeta).gid
      = ((receiptRows (fun n => toString n)).getD 0 emptyReceipt).gid ∧
    ((leannMetaRows (fun n => toString n)).getD 0 emptyLeannMeta).content_sha
      = ((receiptRows (fun n => toString n)).getD 0 emptyReceipt).content_sha ∧
    (ledgerEntries.getD 0 ("", "", "")).1
      = ((receiptRows (fun n => toString n)).getD 0 emptyReceipt).gid ∧
    (ledgerEntries.getD 0 ("", "", "")).2.1
      = ((receiptRows (fun n => toString n)).getD 0 emptyReceipt).content_sha ∧
    ((receiptRows (fun n => toString n)).getD 0 emptyReceipt).epoch = (fun n => toString n) 49 ∧
    (checkpointRow (fun n => toString n)).epoch = (fun n => toString n) 11 :=
  receipt_contents_consistent (fun n => toString n) 0 (by decide)

end MemGlyph
